import Mathlib

/-!
Verification development for the TDW contact-sound synthesis engine
(`tdw/add_ons/py_impact.py`, class `PyImpact`).

The Python source is embedded shallowly:

* machine floats become exact rationals (`ℚ`) wherever the source performs
  only field arithmetic, and real numbers (`ℝ`) where it evaluates
  transcendental functions (`sin`, `log10`);
* Python dictionaries become association lists whose write keeps the
  original position of an existing key and appends a new key at the end,
  matching dict insertion order;
* operations of external libraries (pydub audio segments, the scipy
  gaussian filter, `np.tanh`, `np.interp` resampling) that the engine
  treats as black boxes are abstracted as fields of an interface
  structure, so theorems quantify over their behaviour;
* exceptions (`KeyError`, `AssertionError`) become `Except` values;
* randomness (`np.random.normal` draws, `os.urandom` bytes) becomes
  explicit input data, so the functions are pure in their entropy.

Line numbers in comments refer to `tdw/add_ons/py_impact.py`.
The file lists all definitions first and all theorems after them.
-/

deriving instance DecidableEq for Except

namespace PyImpact

/-! ## Association lists standing for Python dictionaries -/

/-- Dictionary read `d[k]`: the binding of the key, `none` where Python
raises `KeyError`. -/
def lookupA {κ α : Type} [DecidableEq κ] (m : List (κ × α)) (k : κ) : Option α :=
  match m with
  | [] => none
  | (k', v) :: rest => if k' = k then some v else lookupA rest k

/-- Python `del d[k]`: removes the binding of the key (bindings are kept
unique by `insertOrd`, so at most one is removed). -/
def eraseA {κ α : Type} [DecidableEq κ] (m : List (κ × α)) (k : κ) : List (κ × α) :=
  m.filter (fun p => p.1 ≠ k)

/-- Dictionary write `d[k] = v`: replaces the value in place when the key
exists and appends the new binding otherwise, preserving dict insertion
order. -/
def insertOrd {κ α : Type} [DecidableEq κ] (m : List (κ × α)) (k : κ) (v : α) :
    List (κ × α) :=
  if (lookupA m k).isSome then
    m.map (fun p => if p.1 = k then (k, v) else p)
  else m ++ [(k, v)]

/-- Dictionary read raising `KeyError` (`Except` carries the missing key). -/
def getKey {α : Type} (m : List (ℤ × α)) (k : ℤ) : Except ℤ α :=
  match lookupA m k with
  | some v => Except.ok v
  | none => Except.error k

/-- First-occurrence deduplication, the key order of a Python dict built by
repeated insertion. -/
def dedupFirst {α : Type} [DecidableEq α] : List α → List α
  | [] => []
  | x :: xs => x :: (dedupFirst xs).filter (fun y => y ≠ x)

/-! ## Data model -/

/-- Embeds `AudioMaterial` (closed enumeration of audio materials). -/
inductive AudioMaterial
  | ceramic | wood_hard | wood_medium | wood_soft | metal | glass | paper
  | cardboard | leather | fabric | plastic_hard | plastic_soft_foam | rubber | stone
deriving DecidableEq

/-- Embeds `CollisionAudioType` (impact, scrape, roll, or no audio event). -/
inductive CollisionAudioType
  | impact | scrape | roll | none
deriving DecidableEq

/-- Embeds `ObjectAudioStatic`: the per-object static audio record cached by the
engine (name, amp, mass, material, bounciness, resonance, size bucket,
object id). -/
structure StaticAudio where
  name : String
  amp : ℚ
  mass : ℚ
  material : AudioMaterial
  bounciness : ℚ
  resonance : ℚ
  size : ℤ
  object_id : ℤ
deriving DecidableEq

/-- Embeds `Rigidbody` frame data: velocity, angular velocity, sleeping flag. -/
structure Rigidbody where
  velocity : ℚ × ℚ × ℚ
  angular_velocity : ℚ × ℚ × ℚ
  sleeping : Bool
deriving DecidableEq

/-- Embeds `CollisionAudioEvent` as consumed by `PyImpact._get_collision_types`:
the classified candidate for one manifold.  Its constructor (the
classifier) lives in `tdw/physics_audio/collision_audio_event.py`, outside
the sources under verification, so events enter the embedding as data. -/
structure CollisionAudioEvent where
  primary_id : ℤ
  secondary_id : Option ℤ
  collision_type : CollisionAudioType
  magnitude : ℚ
  area : ℚ
deriving DecidableEq

/-- Embeds `Modes`: three parallel vectors of mode frequencies (Hz), onset powers
(dB) and decay times (ms).  The class itself lives in
`tdw/physics_audio/modes.py`, outside the sources under verification; the
fields are those named by the engine. -/
structure Modes where
  frequencies : List ℚ
  powers : List ℚ
  decay_times : List ℚ
deriving DecidableEq

/-- Embeds `CollisionAudioInfo`: per object pair, the cached modes, amp,
initial speed and collision count. -/
structure CollisionAudioInfo where
  obj1_modes : Modes
  obj2_modes : Modes
  amp : ℚ
  init_speed : ℚ
  count : ℕ
deriving DecidableEq

/-! ## Class constants (py_impact.py lines 41-101) -/

/-- Embeds `SCRAPE_MAX_VELOCITY = 5.0` (line 57). -/
def SCRAPE_MAX_VELOCITY : ℚ := 5

/-- Embeds `SCRAPE_M_PER_PIXEL = 1394.068e-9` (line 61), an exact binary-free
rational here. -/
def SCRAPE_M_PER_PIXEL : ℚ := 1394068 / 10 ^ 12

/-- Embeds `SCRAPE_TARGET_DBFS = -20.0` (line 65). -/
def SCRAPE_TARGET_DBFS : ℚ := -20

/-- Embeds `DEFAULT_AMP = 0.2` (line 69). -/
def DEFAULT_AMP : ℚ := 1 / 5

/-- Embeds `DEFAULT_MATERIAL = plastic_hard` (line 73). -/
def DEFAULT_MATERIAL : AudioMaterial := AudioMaterial.plastic_hard

/-- Embeds `DEFAULT_RESONANCE = 0.45` (line 77). -/
def DEFAULT_RESONANCE : ℚ := 9 / 20

/-- Embeds `DEFAULT_SIZE = 1` (line 81). -/
def DEFAULT_SIZE : ℤ := 1

/-- Embeds `ROBOT_JOINT_BOUNCINESS = 0.6` (line 85). -/
def ROBOT_JOINT_BOUNCINESS : ℚ := 3 / 5

/-- Embeds `ROBOT_JOINT_MATERIAL = metal` (line 89). -/
def ROBOT_JOINT_MATERIAL : AudioMaterial := AudioMaterial.metal

/-! ## Python numeric primitives -/

/-- Python `int(x)` on a float: truncation toward zero. -/
def pyInt (q : ℚ) : ℤ := if 0 ≤ q then ⌊q⌋ else ⌈q⌉

/-- Python `str.lower()` (the model names are ASCII), written over the
character list. -/
def pyLower (s : String) : String := String.mk (s.data.map Char.toLower)

/-- Round to the nearest integer, ties to even (Python `round`). -/
def roundHalfEven (q : ℚ) : ℤ :=
  if q - ⌊q⌋ < 1 / 2 then ⌊q⌋
  else if 1 / 2 < q - ⌊q⌋ then ⌊q⌋ + 1
  else if ⌊q⌋ % 2 = 0 then ⌊q⌋ else ⌊q⌋ + 1

/-- Python `round(x, 3)`. -/
def pyRound3 (q : ℚ) : ℚ := (roundHalfEven (q * 1000) : ℚ) / 1000

/-- Embeds `np.max(np.abs(arr))`: the largest absolute value (0 on the empty
list, which numpy rejects). -/
def peakAbs (l : List ℚ) : ℚ := l.foldr (fun x m => max |x| m) 0

/-- Embeds `np.max(arr)` / Python `max`: the largest element (0 on the empty
list, which numpy rejects). -/
def maxList {α : Type} [Zero α] [LinearOrder α] : List α → α
  | [] => 0
  | x :: xs => xs.foldl max x

/-- Pointwise addition padding the shorter list with zeros; this is also
`Modes.mode_add` as the spec describes it. -/
def addPad {α : Type} [Add α] : List α → List α → List α
  | [], ys => ys
  | x :: xs, [] => x :: xs
  | x :: xs, y :: ys => (x + y) :: addPad xs ys

/-- Exact linear convolution, the mathematical content of
`scipy.signal.fftconvolve` on 1-D arrays (empty when either input is
empty). -/
def convolve {α : Type} [Semiring α] : List α → List α → List α
  | [], _ => []
  | _ :: _, [] => []
  | a :: as, bs => addPad (bs.map (fun x => a * x)) ((0 : α) :: convolve as bs)

/-! ## Significant-event selection (`PyImpact._get_collision_types`, lines 273-338) -/

/-- Whether a candidate event is significant: `e.magnitude > 0 and
e.collision_type != CollisionAudioType.none` (lines 334-335). -/
def isSignificant (e : CollisionAudioEvent) : Bool :=
  decide (0 < e.magnitude) && decide (e.collision_type ≠ CollisionAudioType.none)

/-- The final selection loop of `PyImpact._get_collision_types`
(lines 332-338): group this frame's candidate events by `primary_id`
(groups in first-occurrence order, as dict insertion order is in Python),
keep in each group only the significant candidates, and retain the first
candidate of maximum magnitude (Python `max` with a key returns the first
maximal element) as the primary's event, stored under key
`event.primary_id`. -/
def significantEvents (events : List CollisionAudioEvent) :
    List (ℤ × CollisionAudioEvent) :=
  (dedupFirst (events.map (fun e => e.primary_id))).filterMap (fun p =>
    ((((events.filter (fun e => decide (e.primary_id = p))).filter
      isSignificant).argmax (fun e => e.magnitude)).map (fun e => (e.primary_id, e))))

/-! ## Frame parsing (`PyImpact._get_collision_types`, lines 286-331) -/

/-- Collision state strings of the telemetry. -/
inductive CollState
  | enter | stay | exit
deriving DecidableEq

/-- One object-object collision record (`Collision` output data). -/
structure ObjColl where
  collider_id : ℤ
  collidee_id : ℤ
  points : List (ℚ × ℚ × ℚ)
  normals : List (ℚ × ℚ × ℚ)
  relative_velocity : ℚ × ℚ × ℚ
  state : CollState
deriving DecidableEq

/-- One object-environment collision record (`EnvironmentCollision`). -/
structure EnvColl where
  object_id : ℤ
  points : List (ℚ × ℚ × ℚ)
  normals : List (ℚ × ℚ × ℚ)
  state : CollState
  floor : Bool
deriving DecidableEq

/-- One output-data record of a frame (`resp` entries, discriminated by
their four-character type id). -/
inductive FrameEntry
  | rigidbodies (entries : List (ℤ × Rigidbody))
  | robotJointVelocities (entries : List (ℤ × Rigidbody))
  | objColl (c : ObjColl)
  | envColl (c : EnvColl)
deriving DecidableEq

/-- First parsing loop of `_get_collision_types` (lines 286-303): collect
the rigidbody data of objects and robot joints into one dictionary. -/
def collectRigidbodyData (resp : List FrameEntry) : List (ℤ × Rigidbody) :=
  resp.foldl (fun acc entry =>
    match entry with
    | FrameEntry.rigidbodies es => es.foldl (fun a p => insertOrd a p.1 p.2) acc
    | FrameEntry.robotJointVelocities es => es.foldl (fun a p => insertOrd a p.1 p.2) acc
    | _ => acc) []

/-- Second parsing loop of `_get_collision_types` (lines 304-331): build a
`CollisionAudioEvent` per collision record.  The event constructors are
parameters because the classifier class is outside the sources under
verification.  Each record reads `static_audio_data[collider_id]` (and the
rigidbody dictionary) with a plain subscript, so a missing id is a
`KeyError` that aborts the whole loop; the reads happen in the source's
argument order. -/
def buildCollisionEvents
    (mkObjEvent : ObjColl → StaticAudio → Rigidbody → StaticAudio → Rigidbody →
      List (ℤ × ℚ) → CollisionAudioEvent)
    (mkEnvEvent : EnvColl → StaticAudio → Rigidbody → List (ℤ × ℚ) →
      CollisionAudioEvent)
    (static : List (ℤ × StaticAudio)) (previousAreas : List (ℤ × ℚ))
    (resp : List FrameEntry) : Except ℤ (List CollisionAudioEvent) :=
  (resp.foldlM (fun events entry =>
    match entry with
    | FrameEntry.objColl c => do
        let s0 ← getKey static c.collider_id
        let d0 ← getKey (collectRigidbodyData resp) c.collider_id
        let s1 ← getKey static c.collidee_id
        let d1 ← getKey (collectRigidbodyData resp) c.collidee_id
        pure (events ++ [mkObjEvent c s0 d0 s1 d1 previousAreas])
    | FrameEntry.envColl c => do
        let s0 ← getKey static c.object_id
        let d0 ← getKey (collectRigidbodyData resp) c.object_id
        pure (events ++ [mkEnvEvent c s0 d0 previousAreas])
    | _ => pure events) [])

/-- Embeds `PyImpact._get_collision_types` for one frame: parse the collision
records (propagating any `KeyError`) and retain the significant events. -/
def getCollisionTypesFrame
    (mkObjEvent : ObjColl → StaticAudio → Rigidbody → StaticAudio → Rigidbody →
      List (ℤ × ℚ) → CollisionAudioEvent)
    (mkEnvEvent : EnvColl → StaticAudio → Rigidbody → List (ℤ × ℚ) →
      CollisionAudioEvent)
    (static : List (ℤ × StaticAudio)) (previousAreas : List (ℤ × ℚ))
    (resp : List FrameEntry) : Except ℤ (List (ℤ × CollisionAudioEvent)) :=
  (buildCollisionEvents mkObjEvent mkEnvEvent static previousAreas resp).map
    significantEvents

/-- A concrete stand-in for the external event constructor, used to
evaluate the frame parser on closed inputs. -/
def mkObjEvent0 : ObjColl → StaticAudio → Rigidbody → StaticAudio → Rigidbody →
    List (ℤ × ℚ) → CollisionAudioEvent :=
  fun c _ _ _ _ _ =>
    { primary_id := c.collider_id, secondary_id := some c.collidee_id,
      collision_type := CollisionAudioType.impact, magnitude := 1, area := 0 }

/-- A concrete stand-in for the external environment-event constructor. -/
def mkEnvEvent0 : EnvColl → StaticAudio → Rigidbody → List (ℤ × ℚ) →
    CollisionAudioEvent :=
  fun c _ _ _ =>
    { primary_id := c.object_id, secondary_id := Option.none,
      collision_type := CollisionAudioType.impact, magnitude := 1, area := 0 }

/-! ## Static data caching (`PyImpact._cache_static_data`, lines 896-1000) -/

/-- Embeds `max(set(materials), key=materials.count)` (line 977): the most
frequent material.  CPython iterates the set in unspecified order; here
first-occurrence order with the first maximal count is used, which agrees
with CPython whenever the maximum is unique. -/
def modeOf (l : List AudioMaterial) : AudioMaterial :=
  match (dedupFirst l).argmax (fun m => l.count m) with
  | some m => m
  | none => DEFAULT_MATERIAL

/-- The aggregation of lines 969-979: fixed defaults when no comparable
values were collected, otherwise rounded mean amp and resonance, modal
material, and the truncated mean size. -/
def aggregateValues (vals : List StaticAudio) : ℚ × AudioMaterial × ℚ × ℤ :=
  if vals.length = 0 then (DEFAULT_AMP, DEFAULT_MATERIAL, DEFAULT_RESONANCE, DEFAULT_SIZE)
  else (pyRound3 ((vals.map (fun a => a.amp)).sum / vals.length),
        modeOf (vals.map (fun a => a.material)),
        pyRound3 ((vals.map (fun a => a.resonance)).sum / vals.length),
        pyInt ((((vals.map (fun a => a.size)).sum : ℤ) : ℚ) / vals.length))

/-- Embeds `PyImpact._cache_static_data` (lines 896-1000) for one frame.  Inputs:
the caller overrides, the bundled catalog (`objects.csv` rows by name),
and the frame's segmentation (`(id, model name, category)`), static
rigidbody (`(id, mass, bounciness)`) and static robot
(`(joint id, name, mass)`) records.  Resolution per object: override,
else catalog (both with the physics mass and the object id written back),
else derivation.  Derivation (lines 946-987): if any object id (the
target itself included) has the target's category, the comparable values
are those of ALL already-resolved objects; otherwise objects whose mass
ratio to the target has absolute value below 1.5; then
`aggregateValues`.  Robot joints are appended last. -/
def cacheStaticData (overrides catalog : List (String × StaticAudio))
    (segm : List (ℤ × String × String)) (srig : List (ℤ × ℚ × ℚ))
    (srob : List (ℤ × String × ℚ)) : Except ℤ (List (ℤ × StaticAudio)) := do
  let names := segm.foldl (fun a x => insertOrd a x.1 (pyLower x.2.1)) []
  let categories := segm.foldl (fun a x => insertOrd a x.1 x.2.2) []
  let object_masses := srig.foldl (fun a x => insertOrd a x.1 x.2.1) []
  let object_bouncinesses := srig.foldl (fun a x => insertOrd a x.1 x.2.2) []
  let robot_joints := srob.foldl (fun a x => insertOrd a x.1 x.2) []
  -- Resolution pass, lines 929-943.
  let (resolved, need_to_derive) ← names.foldlM
    (fun (acc : List (ℤ × StaticAudio) × List ℤ) p => do
      match lookupA overrides p.2 with
      | some o => do
          let m ← getKey object_masses p.1
          pure (insertOrd acc.1 p.1 { o with mass := m, object_id := p.1 }, acc.2)
      | Option.none =>
        match lookupA catalog p.2 with
        | some o => do
            let m ← getKey object_masses p.1
            pure (insertOrd acc.1 p.1 { o with mass := m, object_id := p.1 }, acc.2)
        | Option.none => pure (acc.1, acc.2 ++ [p.1]))
    ([], [])
  -- Derivation pass, lines 944-987; `current_values` is fixed before the
  -- loop and derived entries are added only after it (lines 988-990).
  let current := resolved.map Prod.snd
  let derived ← need_to_derive.foldlM
    (fun (dd : List (ℤ × StaticAudio)) object_id => do
      let cat ← getKey categories object_id
      let peers := (categories.filter (fun p => p.2 = cat)).map Prod.fst
      let myMass ← getKey object_masses object_id
      let vals ←
        if peers.length > 0 then
          pure current
        else
          object_masses.foldlM (fun (vs : List StaticAudio) mp => do
            if mp.1 = object_id then pure vs
            else
              match lookupA resolved mp.1 with
              | Option.none => pure vs
              | some s =>
                  if |mp.2 / myMass| < 3 / 2 then pure (vs ++ [s]) else pure vs) []
      let (amp, material, resonance, size) := aggregateValues vals
      let name ← getKey names object_id
      let bounciness ← getKey object_bouncinesses object_id
      pure (insertOrd dd object_id
        { name := name, amp := amp, mass := myMass, material := material,
          bounciness := bounciness, resonance := resonance, size := size,
          object_id := object_id }))
    []
  let afterDerive := derived.foldl (fun sd p => insertOrd sd p.1 p.2) resolved
  -- Robot joints, lines 991-1000.
  pure (robot_joints.foldl (fun sd p =>
    insertOrd sd p.1
      { name := p.2.1, amp := DEFAULT_AMP, mass := p.2.2,
        material := ROBOT_JOINT_MATERIAL, bounciness := ROBOT_JOINT_BOUNCINESS,
        resonance := DEFAULT_RESONANCE, size := DEFAULT_SIZE, object_id := p.1 })
    afterDerive)

/-! ## Amp clamping and normalization (`PyImpact.get_sound`, lines 463-468) -/

/-- The tail of `PyImpact.get_sound` (lines 463-467): clamp the amp to
0.99 when distortion prevention is on and its absolute value exceeds
0.99, then scale the peak-normalized sound by the amp
(`sound = amp * sound / np.max(np.abs(sound))`). -/
def getSoundFinalize (prevent_distortion : Bool) (amp : ℚ) (sound : List ℚ) :
    List ℚ :=
  let amp2 := if prevent_distortion = true ∧ 99 / 100 < |amp| then 99 / 100 else amp
  sound.map (fun s => amp2 * s / peakAbs sound)

/-! ## Mode sampling and mode updates -/

/-- The rejection loop of `PyImpact._get_object_modes` (lines 359-361 and
363-365): repeatedly propose `center + draw` until the proposal is at
least the lower bound; the draws are explicit, and an exhausted draw list
is `none` (the loop would still be running). -/
def sampleAccepted (center lo : ℚ) (draws : List ℚ) : Option ℚ :=
  (draws.map (fun d => center + d)).find? (fun v => decide (lo ≤ v))

/-- Embeds `Option`-valued map over a list of indices (the loop body of
`_get_object_modes` threaded through its fallible reads). -/
def mapMO {α : Type} (f : ℕ → Option α) : List ℕ → Option (List α)
  | [] => some []
  | i :: is =>
    match f i, mapMO f is with
    | some v, some vs => some (v :: vs)
    | _, _ => none

/-- Embeds `PyImpact._get_object_modes` (lines 347-374): for each of the 10
modes, draw a frequency rejected below 20 Hz, an unconditionally accepted
power, and a decay time rejected below 0.001 s and then converted to
milliseconds.  `cf`, `op`, `rt` are the material table vectors; the
normal draws are explicit inputs. -/
def getObjectModes (cf op rt : List ℚ) (fdraws tdraws : List (List ℚ))
    (pdraws : List ℚ) : Option Modes :=
  match mapMO (fun jm => (cf.get? jm).bind
      (fun c => sampleAccepted c 20 (fdraws.getD jm []))) (List.range 10),
    mapMO (fun jm => (op.get? jm).bind
      (fun c => (pdraws.get? jm).map (fun d => c + d))) (List.range 10),
    mapMO (fun jm => (rt.get? jm).bind
      (fun c => (sampleAccepted c (1 / 1000) (tdraws.getD jm [])).map
        (fun t => t * 1000))) (List.range 10) with
  | some fs, some ps, some ts =>
      some { frequencies := fs, powers := ps, decay_times := ts }
  | _, _, _ => none

/-- The amp-ratio rescaling of `PyImpact.make_impact_audio` (line 541):
`modes_2.decay_times = modes_2.decay_times + 20 * np.log10(amp2re1)`. -/
noncomputable def rescaleDecayTimes (decay_times : List ℚ) (amp2re1 : ℝ) :
    List ℝ :=
  decay_times.map (fun t : ℚ => (t : ℝ) + 20 * Real.logb 10 amp2re1)

/-- The per-impact power perturbation of `PyImpact.get_sound`
(lines 445-446): `modes.powers = modes.powers + np.random.normal(0, 2,
len(modes.powers))`, with the draws explicit. -/
def perturbPowers (m : Modes) (noise : List ℚ) : Modes :=
  { m with powers := List.zipWith (fun p d => p + d) m.powers noise }

/-! ## Impact synthesis (`PyImpact.synth_impact_modes`, lines 784-811) -/

/-- Embeds `np.linspace a b n`: `n` evenly spaced samples from `a` to `b`
inclusive (`[a]` when `n = 1`, `[]` when `n = 0`). -/
noncomputable def linspace (a b : ℝ) (n : ℕ) : List ℝ :=
  if n = 1 then [a]
  else (List.range n).map (fun i : ℕ => a + (i : ℝ) * (b - a) / ((n - 1 : ℕ) : ℝ))

/-- The half-sine force pulse of `synth_impact_modes` (lines 807-808):
`sin` over `np.linspace(0, np.pi, n_pts)`. -/
noncomputable def forcePulse (n : ℕ) : List ℝ :=
  (linspace 0 Real.pi n).map Real.sin

/-- Embeds `PyImpact.synth_impact_modes` (lines 784-811) as a function of the
combined impulse response `h = Modes.mode_add(modes1.sum_modes(r),
modes2.sum_modes(r))` (the `Modes` class is outside the sources under
verification) and the smaller mass: `None` when `h` is empty, otherwise
the convolution of `h` with the half-sine force pulse of
`ceil(min(0.001 * mass, 2e-3) * 44100)` samples, divided by
`abs(np.max(x))` - the absolute value of the largest element of the
convolution (line 810), not its largest absolute value. -/
noncomputable def synth_impact_modes (h : List ℝ) (mass : ℚ) : Option (List ℝ) :=
  if h = [] then Option.none
  else
    let n_pts : ℕ := (Int.ceil ((min (mass / 1000) (1 / 500) : ℚ) * 44100)).toNat
    let x := convolve h (forcePulse n_pts)
    some (x.map (fun v => v / |maxList x|))

/-! ## Impact sound command (`PyImpact.get_impact_sound_command`, lines 470-512) -/

/-- The two command types a play command can carry. -/
inductive CommandType
  | playAudioData | playPointSourceData
deriving DecidableEq

/-- The `play_audio_data` / `play_point_source_data` command record
emitted for an impact (lines 502-509). -/
structure AudioCommand where
  ctype : CommandType
  id : ℕ
  position : ℚ × ℚ × ℚ
  num_frames : ℕ
  num_channels : ℕ
  frame_rate : ℕ
  wav_data : List ℚ
  y_pos_offset : ℚ
deriving DecidableEq

/-- Embeds `PyImpact._get_unique_id` (lines 1043-1051):
`int.from_bytes(urandom(3), byteorder='big')`, with the three entropy
bytes explicit. -/
def fromBytesBE (b : ℕ × ℕ × ℕ) : ℕ := b.1 * 65536 + b.2.1 * 256 + b.2.2

/-- Embeds `np.mean(contact_points, axis=0)` (line 501). -/
def meanPoint (pts : List (ℚ × ℚ × ℚ)) : ℚ × ℚ × ℚ :=
  if pts.length = 0 then (0, 0, 0)
  else ((pts.map (fun p => p.1)).sum / pts.length,
        (pts.map (fun p => p.2.1)).sum / pts.length,
        (pts.map (fun p => p.2.2)).sum / pts.length)

/-- The command construction of `PyImpact.get_impact_sound_command`
(lines 500-512), with the synthesized sound (already `None` on synthesis
failure) and the `urandom(3)` bytes as inputs.  The wav payload is kept
as the sample list (base64 encoding is injective and out of scope). -/
def getImpactSoundCommand (resonance_audio : Bool) (impact_audio : Option (List ℚ))
    (contact_points : List (ℚ × ℚ × ℚ)) (urandomBytes : ℕ × ℕ × ℕ) :
    Option AudioCommand :=
  match impact_audio with
  | some a => some
      { ctype := if resonance_audio then CommandType.playPointSourceData
                 else CommandType.playAudioData,
        id := fromBytesBE urandomBytes,
        position := meanPoint contact_points,
        num_frames := a.length,
        num_channels := 1,
        frame_rate := 44100,
        wav_data := a,
        y_pos_offset := 1 / 10 }
  | Option.none => Option.none

/-- The non-id fields of a command, for stating what is reproducible
across runs. -/
def commandFields (c : AudioCommand) :
    CommandType × (ℚ × ℚ × ℚ) × ℕ × ℕ × ℕ × List ℚ × ℚ :=
  (c.ctype, c.position, c.num_frames, c.num_channels, c.frame_rate,
   c.wav_data, c.y_pos_offset)

/-! ## Scrape synthesis (`PyImpact.get_scrape_sound`, lines 625-782) -/

/-- The external audio operations used by the scrape path: pydub segment
operations (durations in milliseconds), `np.tanh`, the scipy gaussian
filter, and the `np.interp` resampling of a surface slice onto the
4010-point grid.  The engine treats these as black boxes, so they are
interface fields. -/
structure ScrapeApi (Seg : Type) where
  silent : ℕ → Seg
  fromForce : List ℚ → Seg
  applyGain : Seg → ℚ → Seg
  fadeIn : Seg → ℕ → Seg
  fadeOut : Seg → ℕ → Seg
  samples : Seg → List ℚ
  fromInts : List ℤ → Seg
  appendSeg : Seg → Seg → Seg
  overlay : Seg → Seg → Seg
  repeatSeg : Seg → ℕ → Seg
  dropMs : Seg → ℕ → Seg
  takeMs : Seg → ℕ → Seg
  raw : Seg → List ℤ
  tanh : ℚ → ℚ
  gaussianFilter : List ℚ → ℕ → List ℚ
  interpResample : ℕ → List ℚ → List ℚ

/-- The per-pair scrape state of the engine: summed masters, event
counts, start velocities (three dictionaries keyed by
`(primary_id, secondary_id)`), and the shared surface cursor
`_scrape_previous_index`. -/
structure ScrapeState (Seg : Type) where
  masters : List ((ℤ × ℤ) × Seg)
  counts : List ((ℤ × ℤ) × ℕ)
  startVels : List ((ℤ × ℤ) × ℚ)
  prevIndex : ℕ
deriving DecidableEq

/-- The scrape sound returned to the caller (raw chunk bytes and their
length, lines 777-781). -/
structure ScrapeSound where
  wav : List ℤ
  length : ℕ
deriving DecidableEq

/-- Embeds `PyImpact._normalize_floats` (lines 1016-1029). -/
def normalizeFloats (arr : List ℚ) : List ℚ :=
  if arr.all (fun x => decide (x = 0)) then arr
  else arr.map (fun x => x / peakAbs arr)

/-- Embeds `PyImpact._normalize_16bit_int` (lines 1002-1014): normalize, scale
by 32767 and truncate to integers. -/
def normalize16bitInt (arr : List ℚ) : List ℤ :=
  (normalizeFloats arr).map (fun x => pyInt (x * 32767))

/-- Finite-difference derivative `(s[1:] - s[:-1]) / SCRAPE_M_PER_PIXEL`
(lines 695-696). -/
def surfaceDeriv (pixel : ℚ) (s : List ℚ) : List ℚ :=
  (s.zip s.tail).map (fun p => (p.2 - p.1) / pixel)

/-- Lines 732-753 of `get_scrape_sound`: wrap the force signal as a PCM
segment, call `apply_gain(SCRAPE_TARGET_DBFS)` WITHOUT BINDING ITS RESULT
(line 737 of the source discards the returned segment), fade 4 ms in and
out, convolve with the impulse response, renormalize to 16-bit integers
and apply the velocity gain `db`.  The target dBFS is a parameter here so
that theorems can state what the chunk does (not) depend on. -/
def scrapeChunkSegment {Seg : Type} (api : ScrapeApi Seg) (targetDbfs : ℚ)
    (t_force scraping_ir : List ℚ) (db : ℚ) : Seg :=
  let noise_seg1 := api.fromForce t_force
  let _normalized := api.applyGain noise_seg1 targetDbfs
  let noise_seg_fade := api.fadeOut (api.fadeIn noise_seg1 4) 4
  let conv := convolve scraping_ir (api.samples noise_seg_fade)
  let noise_seg_conv := api.fromInts (normalize16bitInt conv)
  api.applyGain noise_seg_conv db

/-- Embeds `PyImpact._end_scrape` (lines 1031-1041): delete the pair's bindings
from all three scrape dictionaries. -/
def endScrape {Seg : Type} (st : ScrapeState Seg) (key : ℤ × ℤ) : ScrapeState Seg :=
  { st with counts := eraseA st.counts key,
            masters := eraseA st.masters key,
            startVels := eraseA st.startVels key }

/-- Embeds `PyImpact.get_scrape_sound` (lines 625-782).  `surface` is the
(doubled) scrape surface vector, `scraping_ir` the impulse response
computed by `get_impulse_response` (whose mode bookkeeping lives in
`object_modes`, not in the scrape state), and `speed` the velocity
magnitude `np.linalg.norm(velocity)`. -/
def getScrapeSound {Seg : Type} (api : ScrapeApi Seg) (surface scraping_ir : List ℚ)
    (st : ScrapeState Seg) (primary_id secondary_id : ℤ) (speed : ℚ) :
    ScrapeState Seg × Option ScrapeSound :=
  let scrape_key := (primary_id, secondary_id)
  -- Lines 651-662: look up or initialize the pair state.
  let init :=
    match lookupA st.masters scrape_key with
    | some m => (m, (lookupA st.counts scrape_key).getD 0, st)
    | Option.none =>
        let m0 := api.silent 0
        (m0, 0, { st with masters := insertOrd st.masters scrape_key m0,
                          counts := insertOrd st.counts scrape_key 0 })
  let summed_master0 := init.1
  let scrape_event_count := init.2.1
  let st1 := init.2.2
  -- Line 665.
  let mag := min speed SCRAPE_MAX_VELOCITY
  -- Lines 668-669.
  let st2 := if scrape_event_count = 0
    then { st1 with startVels := insertOrd st1.startVels scrape_key mag }
    else st1
  -- Line 672: np.interp(mag ** 2, [0, 25], [-80, -12]).
  let db := if mag ^ 2 ≤ 25 then -80 + mag ^ 2 * (68 / 25) else (-12 : ℚ)
  -- Lines 695-696.
  let dsdx := surfaceDeriv SCRAPE_M_PER_PIXEL surface
  let d2sdx2 := surfaceDeriv SCRAPE_M_PER_PIXEL dsdx
  -- Lines 698-706.
  let num_pts0 : ℤ := ⌊(mag / 1000) / SCRAPE_M_PER_PIXEL⌋
  let num_pts : ℤ := if num_pts0 = 0 then 1 else num_pts0
  if num_pts = 1 then (endScrape st2 scrape_key, Option.none)
  else
    -- Lines 709-721.
    let final_ind0 := st2.prevIndex + num_pts.toNat
    let inds :=
      if (surface.length : ℤ) - 100 < (final_ind0 : ℤ) then (0, num_pts.toNat)
      else (st2.prevIndex, final_ind0)
    let start_ind := inds.1
    let final_ind := inds.2
    let slope_int := api.interpResample num_pts.toNat
      ((dsdx.drop start_ind).take (final_ind - start_ind))
    let curve_int := api.interpResample num_pts.toNat
      ((d2sdx2.drop start_ind).take (final_ind - start_ind))
    let st3 := { st2 with prevIndex := final_ind }
    -- Lines 723-730.
    let curve_int_tan := curve_int.map (fun c => api.tanh (c / 1000))
    let vert_force := api.gaussianFilter curve_int_tan 10
    let hor_force := slope_int
    let t_force := (vert_force.zip (hor_force.take vert_force.length)).map
      (fun p => p.1 / peakAbs vert_force + (1 / 5) * p.2)
    -- Lines 732-753.
    let noise_seg_conv := scrapeChunkSegment api SCRAPE_TARGET_DBFS t_force scraping_ir db
    -- Lines 754-764: rolling overlay.
    let summed_master :=
      if scrape_event_count = 0 then api.appendSeg noise_seg_conv (api.silent 50)
      else if scrape_event_count = 1 then
        api.overlay summed_master0 (api.appendSeg (api.silent 50) noise_seg_conv)
      else
        api.overlay (api.appendSeg summed_master0 (api.silent 50))
          (api.appendSeg (api.repeatSeg (api.silent 50) scrape_event_count) noise_seg_conv)
    -- Lines 766-781.
    let unity_chunk := api.takeMs (api.dropMs summed_master (100 * scrape_event_count)) 100
    let st4 := { st3 with
      masters := insertOrd st3.masters scrape_key summed_master,
      counts := insertOrd st3.counts scrape_key (scrape_event_count + 1) }
    (st4, some { wav := api.raw unity_chunk, length := (api.raw unity_chunk).length })

/-- A trivial concrete `ScrapeApi` instance on the unit segment type,
used to evaluate the scrape path on closed inputs. -/
def unitScrapeApi : ScrapeApi Unit :=
  { silent := fun _ => (), fromForce := fun _ => (), applyGain := fun _ _ => (),
    fadeIn := fun s _ => s, fadeOut := fun s _ => s, samples := fun _ => [],
    fromInts := fun _ => (), appendSeg := fun _ _ => (), overlay := fun _ _ => (),
    repeatSeg := fun s _ => s, dropMs := fun s _ => s, takeMs := fun s _ => s,
    raw := fun _ => [], tanh := fun q => q, gaussianFilter := fun l _ => l,
    interpResample := fun _ l => l }

/-! ## Engine state and reset (`PyImpact.__init__` lines 103-156, `PyImpact.reset` lines 846-865) -/

/-- The mutable state of a `PyImpact` instance: the fields written by
`__init__` and touched by `reset`.  `Seg` is the pydub segment type of
the scrape masters; `initDone` is the add-on's `self.initialized`
flag. -/
structure EngineState (Seg : Type) where
  initial_amp : ℚ
  prevent_distortion : Bool
  logging : Bool
  object_modes : List (ℤ × List (ℤ × CollisionAudioInfo))
  resonance_audio : Bool
  floor : AudioMaterial
  cached_audio_info : Bool
  initDone : Bool
  static_audio_data : List (ℤ × StaticAudio)
  collision_events : List (ℤ × CollisionAudioEvent)
  scrape_summed_masters : List ((ℤ × ℤ) × Seg)
  scrape_previous_index : ℕ
  scrape_start_velocities : List ((ℤ × ℤ) × ℚ)
  scrape_events_count : List ((ℤ × ℤ) × ℕ)
deriving DecidableEq

/-- Embeds `PyImpact.reset` (lines 846-865): assert `0 < initial_amp < 1`
(an `AssertionError` otherwise), then clear the cached static data, the
object modes, the collision events and all scrape state.  The
`initial_amp` parameter is used only in the assertion; no field is
assigned from it. -/
def reset {Seg : Type} (st : EngineState Seg) (initial_amp : ℚ) :
    Except String (EngineState Seg) :=
  if 0 < initial_amp ∧ initial_amp < 1 then
    Except.ok { st with
      cached_audio_info := false,
      initDone := false,
      static_audio_data := [],
      object_modes := [],
      collision_events := [],
      scrape_summed_masters := [],
      scrape_previous_index := 0,
      scrape_start_velocities := [],
      scrape_events_count := [] }
  else Except.error "initial_amp must be greater than 0 and less than 1"

/-- A small static audio record used by several concrete inputs. -/
def staticCube : StaticAudio :=
  { name := "cube", amp := 1 / 5, mass := 1, material := AudioMaterial.wood_medium,
    bounciness := 1 / 2, resonance := 9 / 20, size := 1, object_id := 2 }

/-- Inputs of the unknown-object failing frame: a static registry that
knows object 2 only. -/
def staticKnown2 : List (ℤ × StaticAudio) := [(2, staticCube)]

/-- A zero rigidbody record. -/
def rbZero : Rigidbody :=
  { velocity := (0, 0, 0), angular_velocity := (0, 0, 0), sleeping := false }

/-- A collision whose collider id 1 has no static data. -/
def collUnknown : ObjColl :=
  { collider_id := 1, collidee_id := 2, points := [(0, 0, 0)],
    normals := [(0, 1, 0)], relative_velocity := (0, -3, 0), state := CollState.enter }

/-- An environment collision of the known object 2, arriving after the
unknown-object collision in the same frame. -/
def envKnown : EnvColl :=
  { object_id := 2, points := [(0, 0, 0)], normals := [(0, 1, 0)],
    state := CollState.enter, floor := true }

/-- The failing frame: rigidbody data for both objects, the
unknown-object collision, then a collision of the known object. -/
def frameUnknown : List FrameEntry :=
  [FrameEntry.rigidbodies [(1, rbZero), (2, rbZero)],
   FrameEntry.objColl collUnknown, FrameEntry.envColl envKnown]

/-- A catalog row for the only cataloged object of the derivation
failing input. -/
def chairCatalogRow : StaticAudio :=
  { name := "known_chair", amp := 3 / 5, mass := 2, material := AudioMaterial.wood_hard,
    bounciness := 1 / 2, resonance := 1 / 2, size := 2, object_id := 0 }

/-- The catalog of the derivation failing input. -/
def catalogCE : List (String × StaticAudio) := [("known_chair", chairCatalogRow)]

/-- Segmentation records: object 1 is cataloged with category chair;
object 2 is unknown and is the only object of category table. -/
def segmCE : List (ℤ × String × String) :=
  [(1, "known_chair", "chair"), (2, "mystery", "table")]

/-- Static rigidbody records: masses 10 and 1, so the mass ratio 10 is
far outside the interval the claim's mass fallback accepts. -/
def srigCE : List (ℤ × ℚ × ℚ) := [(1, 10, 1 / 2), (2, 1, 1 / 2)]

/-- The significant candidate event of the classifier witness frame. -/
def eventW : CollisionAudioEvent :=
  { primary_id := 1, secondary_id := some 2,
    collision_type := CollisionAudioType.impact, magnitude := 5, area := 0 }

/-- Three candidates of primary 1: magnitudes 3 and 5 significant, a
magnitude-7 candidate excluded by its `none` collision type. -/
def eventsW : List CollisionAudioEvent :=
  [{ primary_id := 1, secondary_id := Option.none,
     collision_type := CollisionAudioType.impact, magnitude := 3, area := 0 },
   eventW,
   { primary_id := 1, secondary_id := Option.none,
     collision_type := CollisionAudioType.none, magnitude := 7, area := 0 }]

/-- A concrete scrape state with live state for pair (1, 2) and a
nonzero surface cursor. -/
def scrapeStateW : ScrapeState Unit :=
  { masters := [((1, 2), ())], counts := [((1, 2), 3)],
    startVels := [((1, 2), 4)], prevIndex := 7 }

/-- The `Modes` value sampled by the C8 witness inputs. -/
def modesW : Modes :=
  { frequencies := List.replicate 10 30, powers := List.replicate 10 0,
    decay_times := List.replicate 10 2000 }

/-- A concrete engine state used to instantiate the reset theorem. -/
def engineStateW : EngineState Unit :=
  { initial_amp := 7 / 10, prevent_distortion := true, logging := false,
    object_modes := [], resonance_audio := false,
    floor := AudioMaterial.wood_medium, cached_audio_info := true,
    initDone := true,
    static_audio_data := [(5, staticCube)],
    collision_events := [], scrape_summed_masters := [((1, 2), ())],
    scrape_previous_index := 9, scrape_start_velocities := [((1, 2), 4)],
    scrape_events_count := [((1, 2), 2)] }

/-! # Theorems

Helper lemmas first, then one theorem per claim with its witness or
counterexample. -/

/-! ## Reduction lemmas for `Except` computations -/

theorem pure_eq_ok {ε α : Type} (a : α) : (pure a : Except ε α) = Except.ok a := rfl

theorem ok_bind {ε α β : Type} (a : α) (f : α → Except ε β) :
    (Except.ok a >>= f : Except ε β) = f a := rfl

theorem error_bind {ε α β : Type} (e : ε) (f : α → Except ε β) :
    (Except.error e >>= f : Except ε β) = Except.error e := rfl

/-! ## Association-list lemmas -/

theorem filter_map_replace {κ α : Type} [DecidableEq κ] (m : List (κ × α))
    (k : κ) (v : α) :
    (m.map (fun p => if p.1 = k then (k, v) else p)).filter (fun p => p.1 ≠ k)
      = m.filter (fun p => p.1 ≠ k) := by
  induction m with
  | nil => rfl
  | cons p rest ih =>
    by_cases hp : p.1 = k
    · simp only [List.map_cons, if_pos hp, List.filter_cons]
      simp only [hp, ne_eq, not_true_eq_false, decide_false_eq_false]
      simpa using ih
    · simp only [List.map_cons, if_neg hp, List.filter_cons]
      simp only [ne_eq, hp, not_false_eq_true, decide_true_eq_true]
      simpa using ih

theorem eraseA_insertOrd {κ α : Type} [DecidableEq κ] (m : List (κ × α))
    (k : κ) (v : α) : eraseA (insertOrd m k v) k = eraseA m k := by
  unfold insertOrd eraseA
  by_cases h : (lookupA m k).isSome
  · rw [if_pos h]
    exact filter_map_replace m k v
  · rw [if_neg h, List.filter_append]
    simp

theorem lookupA_eraseA {κ α : Type} [DecidableEq κ] (m : List (κ × α)) (k : κ) :
    lookupA (eraseA m k) k = none := by
  induction m with
  | nil => rfl
  | cons p rest ih =>
    by_cases h : p.1 = k
    · simpa [eraseA, List.filter_cons, h] using ih
    · obtain ⟨k', v⟩ := p
      simp only [ne_eq] at h
      simpa [eraseA, List.filter_cons, h, lookupA] using ih

theorem dedupFirst_nodup {α : Type} [DecidableEq α] (l : List α) :
    (dedupFirst l).Nodup := by
  induction l with
  | nil => simp [dedupFirst]
  | cons x xs ih =>
    simp only [dedupFirst, List.nodup_cons]
    refine ⟨fun hmem => ?_, ih.filter _⟩
    have := (List.mem_filter.mp hmem).2
    simp at this

/-! ## Peak-absolute-value lemmas -/

theorem peakAbs_nonneg (l : List ℚ) : 0 ≤ peakAbs l := by
  induction l with
  | nil => simp [peakAbs]
  | cons x xs ih =>
    simp only [peakAbs, List.foldr_cons] at ih ⊢
    exact le_max_of_le_right ih

theorem le_peakAbs {l : List ℚ} {x : ℚ} (h : x ∈ l) : |x| ≤ peakAbs l := by
  induction l with
  | nil => simp at h
  | cons y ys ih =>
    rcases List.mem_cons.mp h with rfl | h'
    · exact le_max_left _ _
    · exact le_trans (ih h') (le_max_right _ _)

theorem peakAbs_map_mul (c : ℚ) (l : List ℚ) :
    peakAbs (l.map (fun x => c * x)) = |c| * peakAbs l := by
  induction l with
  | nil => simp [peakAbs]
  | cons x xs ih =>
    simp only [peakAbs, List.map_cons, List.foldr_cons] at ih ⊢
    rw [ih, abs_mul, mul_max_of_nonneg _ _ (abs_nonneg c)]

theorem peakAbs_map_mul_div (a M : ℚ) (l : List ℚ) :
    peakAbs (l.map (fun s => a * s / M)) = |a| / |M| * peakAbs l := by
  have heq : l.map (fun s => a * s / M) = l.map (fun s => a / M * s) := by
    induction l with
    | nil => rfl
    | cons x xs ih =>
      simp only [List.map_cons, ih, List.cons.injEq]
      exact ⟨by ring, trivial⟩
  rw [heq, peakAbs_map_mul, abs_div]

/-! ## C1: at most one significant event per primary, of maximal magnitude -/

theorem significantEvents_mem_spec (events : List CollisionAudioEvent)
    (p : ℤ) (e : CollisionAudioEvent) (h : (p, e) ∈ significantEvents events) :
    e.primary_id = p ∧ e ∈ events ∧ 0 < e.magnitude ∧
      e.collision_type ≠ CollisionAudioType.none ∧
      ∀ e' ∈ events, e'.primary_id = p → 0 < e'.magnitude →
        e'.collision_type ≠ CollisionAudioType.none → e'.magnitude ≤ e.magnitude := by
  simp only [significantEvents, List.mem_filterMap, Option.map_eq_some'] at h
  obtain ⟨q, hq, e', hargmax, hpair⟩ := h
  have hee : e' = e := congrArg Prod.snd hpair
  rw [hee] at hargmax
  have hkey : e.primary_id = p := by
    rw [← hee]; exact congrArg Prod.fst hpair
  have hmem := List.argmax_mem hargmax
  have hmem1 := List.mem_filter.mp hmem
  have hmem2 := List.mem_filter.mp hmem1.1
  have hsig : isSignificant e = true := hmem1.2
  have hgroup : e.primary_id = q := by simpa using hmem2.2
  have hpq : q = p := hgroup ▸ hkey
  subst hpq
  simp only [isSignificant, Bool.and_eq_true, decide_eq_true_eq] at hsig
  refine ⟨hkey, hmem2.1, hsig.1, hsig.2, ?_⟩
  intro e' he' hpid hmag htype
  have he'sig : e' ∈ (events.filter
      (fun x => decide (x.primary_id = q))).filter isSignificant := by
    rw [List.mem_filter, List.mem_filter]
    refine ⟨⟨he', ?_⟩, ?_⟩
    · simpa using hgroup ▸ hpid
    · simp [isSignificant, hmag, htype]
  exact List.le_of_mem_argmax he'sig hargmax

theorem significantEvents_keys_nodup (events : List CollisionAudioEvent) :
    ((significantEvents events).map Prod.fst).Nodup := by
  have hsub : ∀ (l : List ℤ) (k : ℤ),
      k ∈ ((l.filterMap (fun p =>
        (((events.filter (fun e => decide (e.primary_id = p))).filter
          isSignificant).argmax (fun e => e.magnitude)).map
            (fun e => (e.primary_id, e)))).map Prod.fst) → k ∈ l := by
    intro l k hk
    simp only [List.mem_map, List.mem_filterMap, Option.map_eq_some'] at hk
    obtain ⟨⟨p, e⟩, ⟨q, hql, e', hargmax, hpair⟩, hfst⟩ := hk
    have hmem := List.argmax_mem hargmax
    have hgroup : e'.primary_id = q := by
      have := (List.mem_filter.mp (List.mem_filter.mp hmem).1).2
      simpa using this
    have : p = q := by
      have h1 : e'.primary_id = p := congrArg Prod.fst hpair
      rw [← h1, hgroup]
    subst this
    simp only [← hfst]
    exact hql
  have hnd : (dedupFirst (events.map (fun e => e.primary_id))).Nodup :=
    dedupFirst_nodup _
  unfold significantEvents
  revert hnd
  generalize dedupFirst (events.map (fun e => e.primary_id)) = l
  induction l with
  | nil => intro _; simp
  | cons p rest ih =>
    intro hnd
    rw [List.nodup_cons] at hnd
    simp only [List.filterMap_cons]
    rcases hopt : (((events.filter (fun e => decide (e.primary_id = p))).filter
        isSignificant).argmax (fun e => e.magnitude)).map
          (fun e => (e.primary_id, e)) with _ | pe
    · rw [hopt]
      exact ih hnd.2
    · rw [hopt]
      simp only [List.map_cons, List.nodup_cons]
      constructor
      · intro hmem
        have hkey : pe.1 = p := by
          rcases Option.map_eq_some'.mp hopt with ⟨e', hargmax, hpair⟩
          have hgroup : e'.primary_id = p := by
            have := (List.mem_filter.mp (List.mem_filter.mp
              (List.argmax_mem hargmax)).1).2
            simpa using this
          rw [← hpair]
          exact hgroup
        exact hnd.1 (hkey ▸ hsub rest pe.1 hmem)
      · exact ih hnd.2

/-- C1: after collision classification the event map contains at most one
event per `primary_id` (the keys of `significantEvents` are distinct),
and each stored event is one of that primary's candidates, has strictly
positive magnitude and a collision type other than `none`, and its
magnitude is maximal among that primary's candidates satisfying those two
conditions. -/
theorem claim_c1_one_max_event_per_primary (events : List CollisionAudioEvent)
    (p : ℤ) (e : CollisionAudioEvent) (h : (p, e) ∈ significantEvents events) :
    ((significantEvents events).map Prod.fst).Nodup ∧
    e.primary_id = p ∧ e ∈ events ∧ 0 < e.magnitude ∧
      e.collision_type ≠ CollisionAudioType.none ∧
      ∀ e' ∈ events, e'.primary_id = p → 0 < e'.magnitude →
        e'.collision_type ≠ CollisionAudioType.none → e'.magnitude ≤ e.magnitude :=
  ⟨significantEvents_keys_nodup events, significantEvents_mem_spec events p e h⟩

/-- Witness for C1 at a concrete frame: among three candidates of primary
1 (magnitudes 3 and 5 significant, magnitude 7 excluded by its `none`
type), the event of magnitude 5 is retained. -/
theorem claim_c1_witness :
    ((1, eventW) ∈ significantEvents eventsW) ∧
    (((significantEvents eventsW).map Prod.fst).Nodup ∧
      eventW.primary_id = 1 ∧ eventW ∈ eventsW ∧ 0 < eventW.magnitude ∧
      eventW.collision_type ≠ CollisionAudioType.none ∧
      ∀ e' ∈ eventsW, e'.primary_id = 1 → 0 < e'.magnitude →
        e'.collision_type ≠ CollisionAudioType.none →
          e'.magnitude ≤ eventW.magnitude) :=
  ⟨by decide, claim_c1_one_max_event_per_primary eventsW 1 eventW (by decide)⟩

/-! ## C4: distortion prevention bounds the peak by 0.99 -/

/-- C4: with `prevent_distortion` on and a sound of positive peak, the
finalized impact PCM has peak absolute amplitude at most 0.99; the amp
factor used is 0.99 exactly when its absolute value exceeds 0.99; and the
sound is normalized to peak 1 before scaling. -/
theorem claim_c4_prevent_distortion_peak (amp : ℚ) (sound : List ℚ)
    (hM : 0 < peakAbs sound) :
    peakAbs (getSoundFinalize true amp sound) ≤ 99 / 100 ∧
    (99 / 100 < |amp| →
      getSoundFinalize true amp sound
        = sound.map (fun s => 99 / 100 * s / peakAbs sound)) ∧
    peakAbs (sound.map (fun s => s / peakAbs sound)) = 1 := by
  have hMne : peakAbs sound ≠ 0 := ne_of_gt hM
  have habsM : |peakAbs sound| = peakAbs sound := abs_of_pos hM
  refine ⟨?_, ?_, ?_⟩
  · unfold getSoundFinalize
    rw [peakAbs_map_mul_div, habsM]
    by_cases hc : 99 / 100 < |amp|
    · rw [if_pos ⟨rfl, hc⟩]
      rw [abs_of_pos (by norm_num : (0 : ℚ) < 99 / 100)]
      rw [div_mul_eq_mul_div, mul_div_assoc, div_self hMne, mul_one]
    · rw [if_neg (by tauto)]
      rw [div_mul_eq_mul_div, mul_div_assoc, div_self hMne, mul_one]
      exact le_of_not_lt hc
  · intro hc
    unfold getSoundFinalize
    rw [if_pos ⟨rfl, hc⟩]
  · have heq : sound.map (fun s => s / peakAbs sound)
        = sound.map (fun s => 1 * s / peakAbs sound) := by
      simp
    rw [heq, peakAbs_map_mul_div, habsM, abs_one, div_mul_eq_mul_div, one_mul,
      div_self hMne]

/-- Witness for C4 at `amp = 5`, `sound = [1, -2]`: the hypotheses hold
and the finalized peak is bounded by 0.99. -/
theorem claim_c4_witness :
    0 < peakAbs [1, -2] ∧
    peakAbs (getSoundFinalize true 5 [1, -2]) ≤ 99 / 100 :=
  ⟨by decide, (claim_c4_prevent_distortion_peak 5 [1, -2] (by decide)).1⟩

/-! ## C2: a collision with an unknown object id aborts the frame -/

/-- C2 (code evaluation at the failing input): on a frame whose first
collision references object id 1, absent from the static registry, the
parsing loop of `_get_collision_types` fails with `KeyError: 1` at the
subscript `self.static_audio_data[collider_id]` (line 313); the whole
frame is aborted, so the later collision of the known object 2 in the
same frame is not processed either - nothing is skipped silently. -/
theorem claim_c2_unknown_object_key_error :
    getCollisionTypesFrame mkObjEvent0 mkEnvEvent0 staticKnown2 [] frameUnknown
      = Except.error 1 ∧
    getCollisionTypesFrame mkObjEvent0 mkEnvEvent0 staticKnown2 []
      [FrameEntry.rigidbodies [(1, rbZero), (2, rbZero)], FrameEntry.envColl envKnown]
      = Except.ok [(2, mkEnvEvent0 envKnown staticCube rbZero [])] := by
  constructor
  · decide
  · decide

/-! ## C3: derivation aggregates over all resolved objects, not category peers -/

/-- C3 (code evaluation at the failing input): object 2 is the only
object of its category, and the only resolved object (the cataloged
chair, amp 0.6) has ten times its mass.  The claim's derivation rules
would therefore fall through to the fixed defaults (`amp = 0.2`), but
`_cache_static_data` takes the category branch (the target is its own
category peer, line 948) and aggregates the values of all resolved
objects (lines 950-953), deriving `amp = 0.6`. -/
theorem claim_c3_derivation_failing_input :
    Except.map (fun sd => lookupA sd 2)
        (cacheStaticData [] catalogCE segmCE srigCE [])
      = Except.ok (some
        { name := "mystery", amp := 3 / 5, mass := 1,
          material := AudioMaterial.wood_hard, bounciness := 1 / 2,
          resonance := 1 / 2, size := 2, object_id := 2 }) ∧
    (3 / 5 : ℚ) ≠ DEFAULT_AMP := by
  have hl1 : pyLower "known_chair" = "known_chair" := by decide
  have hl2 : pyLower "mystery" = "mystery" := by decide
  have hne : ("known_chair" : String) ≠ "mystery" := by decide
  have hne2 : ("mystery" : String) ≠ "known_chair" := by decide
  have hne3 : ("chair" : String) ≠ "table" := by decide
  have hne4 : ("table" : String) ≠ "chair" := by decide
  constructor
  · norm_num [cacheStaticData, catalogCE, segmCE, srigCE, chairCatalogRow, hne,
      hne2, hne3, hne4,
      lookupA, insertOrd, getKey, aggregateValues, modeOf, dedupFirst,
      pyRound3, roundHalfEven, pyInt, List.foldlM, pure_eq_ok, ok_bind,
      error_bind, hl1, hl2, DEFAULT_AMP, DEFAULT_MATERIAL, DEFAULT_RESONANCE,
      DEFAULT_SIZE, Except.map]
  · norm_num [DEFAULT_AMP]

/-! ## C7: the scrape gain normalization is discarded -/

/-- C7 (code evaluation): the chunk built by lines 732-753 of
`get_scrape_sound` does not depend on the target dBFS at all, because the
segment returned by `apply_gain(SCRAPE_TARGET_DBFS)` (line 737) is
discarded and the un-gained segment `noise_seg1` is the one faded and
convolved; so no -20 dBFS normalization happens before the fade or the
convolution, for any behaviour of the audio library. -/
theorem claim_c7_gain_normalization_discarded {Seg : Type} (api : ScrapeApi Seg)
    (t1 t2 : ℚ) (t_force scraping_ir : List ℚ) (db : ℚ) :
    scrapeChunkSegment api t1 t_force scraping_ir db
      = scrapeChunkSegment api t2 t_force scraping_ir db := rfl

/-! ## C9: command ids come from urandom, which no RNG seed fixes -/

/-- C9 (amended): for a fixed synthesized sound and contact points, the
emitted impact command is reproducible in every field except `id`: the
non-id fields do not depend on the `urandom(3)` draw, while the `id`
field equals the big-endian value of that draw, which `_get_unique_id`
takes from the operating system independently of any RNG seed. -/
theorem claim_c9_deterministic_except_id (resonance_audio : Bool)
    (audio : List ℚ) (pts : List (ℚ × ℚ × ℚ)) (e1 e2 : ℕ × ℕ × ℕ) :
    Option.map commandFields
        (getImpactSoundCommand resonance_audio (some audio) pts e1)
      = Option.map commandFields
        (getImpactSoundCommand resonance_audio (some audio) pts e2) ∧
    Option.map (fun c => c.id)
        (getImpactSoundCommand resonance_audio (some audio) pts e1)
      = some (fromBytesBE e1) := by
  constructor
  · simp [getImpactSoundCommand, commandFields]
  · simp [getImpactSoundCommand]

/-- Counterexample for C9: two runs identical in telemetry, RNG draws and
synthesized audio, but with different `urandom` bytes, emit different
commands (the ids differ), so the streams are not byte-equal. -/
theorem claim_c9_counterexample :
    getImpactSoundCommand false (some [1]) [(0, 0, 0)] (0, 0, 0)
      ≠ getImpactSoundCommand false (some [1]) [(0, 0, 0)] (0, 0, 1) := by
  intro h
  have hid := congrArg (Option.map (fun c => c.id)) h
  simp [getImpactSoundCommand, fromBytesBE] at hid

/-! ## C5: the synthesized impact is normalized by abs(max), not the peak -/

theorem linspace_length (a b : ℝ) (n : ℕ) : (linspace a b n).length = n := by
  rw [linspace]
  by_cases h : n = 1
  · simp [h]
  · rw [if_neg h, List.length_map, List.length_range]

theorem forcePulse_length (n : ℕ) : (forcePulse n).length = n := by
  simp [forcePulse, linspace_length]

/-- C5 (amended): for every nonempty combined impulse response `h` and
every mass, `synth_impact_modes` convolves `h` with a half-sine force
pulse of exactly `ceil(min(0.001 * mass, 2e-3) * 44100)` samples, and
returns that convolution divided by the absolute value of its maximum
element (`x / abs(np.max(x))`) - so the peak absolute amplitude of the
result is 1 only when the maximum element attains the peak magnitude,
not in general. -/
theorem claim_c5_amended_normalized_by_abs_max (h : List ℝ) (mass : ℚ)
    (hh : h ≠ []) (_hm : 0 < mass) :
    (forcePulse ((Int.ceil ((min (mass / 1000) (1 / 500) : ℚ) * 44100)).toNat)).length
      = (Int.ceil ((min (mass / 1000) (1 / 500) : ℚ) * 44100)).toNat ∧
    synth_impact_modes h mass = some
      ((convolve h (forcePulse
          ((Int.ceil ((min (mass / 1000) (1 / 500) : ℚ) * 44100)).toNat))).map
        (fun v => v / |maxList (convolve h (forcePulse
          ((Int.ceil ((min (mass / 1000) (1 / 500) : ℚ) * 44100)).toNat)))|)) := by
  refine ⟨forcePulse_length _, ?_⟩
  rw [synth_impact_modes, if_neg hh]

/-- Witness for C5 at `h = [1]`, `mass = 1/15`. -/
theorem claim_c5_witness :
    ([(1 : ℝ)] ≠ []) ∧ (0 < (1 / 15 : ℚ)) ∧
    ((forcePulse ((Int.ceil ((min ((1 / 15 : ℚ) / 1000) (1 / 500) : ℚ) * 44100)).toNat)).length
      = (Int.ceil ((min ((1 / 15 : ℚ) / 1000) (1 / 500) : ℚ) * 44100)).toNat ∧
    synth_impact_modes [(1 : ℝ)] (1 / 15) = some
      ((convolve [(1 : ℝ)] (forcePulse
          ((Int.ceil ((min ((1 / 15 : ℚ) / 1000) (1 / 500) : ℚ) * 44100)).toNat))).map
        (fun v => v / |maxList (convolve [(1 : ℝ)] (forcePulse
          ((Int.ceil ((min ((1 / 15 : ℚ) / 1000) (1 / 500) : ℚ) * 44100)).toNat)))|))) :=
  ⟨by simp, by norm_num,
   claim_c5_amended_normalized_by_abs_max [(1 : ℝ)] (1 / 15) (by simp) (by norm_num)⟩

/-- Counterexample for C5: at `h = [0, -2, 1]` (a combined impulse
response starting at 0, as every `sum_modes` output does since
`sin 0 = 0`) and `mass = 1/15`, the force pulse has 3 samples
`[sin 0, sin (pi/2), sin pi] = [0, 1, 0]`, the convolution is
`[0, 0, -2, 1, 0]` with maximum element 1, so the returned PCM is
`[0, 0, -2, 1, 0]` itself: its peak absolute amplitude is 2, not 1,
because the code divides by `abs(np.max(x))` rather than by
`np.max(np.abs(x))`. -/
theorem claim_c5_counterexample_peak_not_one :
    synth_impact_modes [(0 : ℝ), -2, 1] (1 / 15) = some [0, 0, -2, 1, 0] ∧
    maxList (([0, 0, -2, 1, 0] : List ℝ).map (fun v => |v|)) = 2 ∧
    (2 : ℝ) ≠ 1 := by
  have hceil : (Int.ceil ((min ((1 / 15 : ℚ) / 1000) (1 / 500) : ℚ) * 44100)) = 3 := by
    have h1 : ((min ((1 / 15 : ℚ) / 1000) (1 / 500) : ℚ) * 44100) = 147 / 50 := by
      norm_num [min_def]
    rw [h1, Int.ceil_eq_iff]
    norm_num
  have hnp : (Int.ceil ((min ((1 / 15 : ℚ) / 1000) (1 / 500) : ℚ) * 44100)).toNat = 3 := by
    rw [hceil]
    rfl
  have hls : linspace 0 Real.pi 3 = [0, Real.pi / 2, Real.pi] := by
    rw [linspace, if_neg (by norm_num)]
    norm_num [List.range_succ]
  have hfp : forcePulse 3 = [0, 1, 0] := by
    rw [forcePulse, hls]
    simp [Real.sin_pi_div_two, Real.sin_pi]
  have hconv : convolve [(0 : ℝ), -2, 1] [0, 1, 0] = [0, 0, -2, 1, 0] := by
    norm_num [convolve, addPad]
  have hmax : maxList ([0, 0, -2, 1, 0] : List ℝ) = 1 := by
    rw [maxList]
    simp only [List.foldl]
    rw [max_self,
      max_eq_left (by norm_num : (-2 : ℝ) ≤ 0),
      max_eq_right (by norm_num : (0 : ℝ) ≤ 1),
      max_eq_left (by norm_num : (0 : ℝ) ≤ 1)]
  refine ⟨?_, ?_, by norm_num⟩
  · rw [synth_impact_modes, if_neg (by simp)]
    simp only [hnp, hfp, hconv, hmax, abs_one, div_one, List.map]
  · have : (([0, 0, -2, 1, 0] : List ℝ).map (fun v => |v|)) = [0, 0, 2, 1, 0] := by
      norm_num [abs_of_nonpos, abs_of_nonneg]
    rw [this, maxList]
    simp only [List.foldl]
    rw [max_self,
      max_eq_right (by norm_num : (0 : ℝ) ≤ 2),
      max_eq_left (by norm_num : (1 : ℝ) ≤ 2),
      max_eq_left (by norm_num : (0 : ℝ) ≤ 2)]

/-! ## C8: mode invariants under sampling, rescaling and perturbation -/

theorem sampleAccepted_le (center lo : ℚ) (draws : List ℚ) (v : ℚ)
    (h : sampleAccepted center lo draws = some v) : lo ≤ v := by
  have := List.find?_some h
  simpa using this

theorem mapMO_mem {α : Type} (f : ℕ → Option α) (l : List ℕ) (vs : List α)
    (h : mapMO f l = some vs) : ∀ v ∈ vs, ∃ i ∈ l, f i = some v := by
  induction l generalizing vs with
  | nil =>
    simp only [mapMO, Option.some.injEq] at h
    subst h
    simp
  | cons i is ih =>
    simp only [mapMO] at h
    rcases hfi : f i with _ | v0 <;> rw [hfi] at h
    · exact absurd h (by simp)
    rcases hrec : mapMO f is with _ | vs0 <;> rw [hrec] at h
    · exact absurd h (by simp)
    simp only [Option.some.injEq] at h
    subst h
    intro v hv
    rcases List.mem_cons.mp hv with rfl | hv0
    · exact ⟨i, List.mem_cons_self i is, hfi⟩
    · obtain ⟨j, hjl, hj⟩ := ih vs0 hrec v hv0
      exact ⟨j, List.mem_cons_of_mem i hjl, hj⟩

/-- C8 (amended): a sampled `Modes` satisfies `frequencies[i] >= 20` and
`decay_times[i] >= 1 ms`; the power perturbation of `get_sound` leaves
frequencies and decay times untouched; but the amp-ratio rescaling of
`make_impact_audio` shifts every decay time by `20 * log10(amp2re1)`, so
it preserves the 1 ms bound only when `amp2re1 >= 1` - for `amp2re1 < 1`
it can push decay times below 1 ms (see the counterexample). -/
theorem claim_c8_amended_mode_invariants (cf op rt : List ℚ)
    (fdraws tdraws : List (List ℚ)) (pdraws : List ℚ) (m : Modes)
    (hs : getObjectModes cf op rt fdraws tdraws pdraws = some m)
    (noise : List ℚ) (amp2re1 : ℝ) (h1 : 1 ≤ amp2re1) :
    (∀ f ∈ m.frequencies, 20 ≤ f) ∧ (∀ t ∈ m.decay_times, 1 ≤ t) ∧
    (perturbPowers m noise).frequencies = m.frequencies ∧
    (perturbPowers m noise).decay_times = m.decay_times ∧
    (∀ t' ∈ rescaleDecayTimes m.decay_times amp2re1, 1 ≤ t') := by
  rw [getObjectModes] at hs
  rcases hfs : mapMO (fun jm => (cf.get? jm).bind
      (fun c => sampleAccepted c 20 (fdraws.getD jm []))) (List.range 10)
    with _ | fs <;> rw [hfs] at hs
  · exact absurd hs (by simp)
  rcases hps : mapMO (fun jm => (op.get? jm).bind
      (fun c => (pdraws.get? jm).map (fun d => c + d))) (List.range 10)
    with _ | ps <;> rw [hps] at hs
  · exact absurd hs (by simp)
  rcases hts : mapMO (fun jm => (rt.get? jm).bind
      (fun c => (sampleAccepted c (1 / 1000) (tdraws.getD jm [])).map
        (fun t => t * 1000))) (List.range 10)
    with _ | ts <;> rw [hts] at hs
  · exact absurd hs (by simp)
  simp only [Option.some.injEq] at hs
  subst hs
  have hfreq : ∀ f ∈ fs, 20 ≤ f := by
    intro f hf
    obtain ⟨i, _, hi⟩ := mapMO_mem _ _ _ hfs f hf
    rcases hci : cf.get? i with _ | c <;> rw [hci] at hi
    · exact absurd hi (by simp)
    simp only [Option.some_bind] at hi
    exact sampleAccepted_le _ _ _ _ hi
  have hdecay : ∀ t ∈ ts, 1 ≤ t := by
    intro t ht
    obtain ⟨i, _, hi⟩ := mapMO_mem _ _ _ hts t ht
    rcases hci : rt.get? i with _ | c <;> rw [hci] at hi
    · exact absurd hi (by simp)
    simp only [Option.some_bind] at hi
    rcases hsa : sampleAccepted c (1 / 1000) (tdraws.getD i []) with _ | t0 <;>
      rw [hsa] at hi
    · exact absurd hi (by simp)
    simp only [Option.map_some', Option.some.injEq] at hi
    have h0 := sampleAccepted_le _ _ _ _ hsa
    rw [← hi]
    calc (1 : ℚ) = (1 / 1000) * 1000 := by norm_num
    _ ≤ t0 * 1000 := by
        apply mul_le_mul_of_nonneg_right h0
        norm_num
  refine ⟨hfreq, hdecay, rfl, rfl, ?_⟩
  intro t' ht'
  rw [rescaleDecayTimes, List.mem_map] at ht'
  obtain ⟨t, htm, ht⟩ := ht'
  have hlog : 0 ≤ Real.logb 10 amp2re1 :=
    Real.logb_nonneg (by norm_num) h1
  have hcast : (1 : ℝ) ≤ (t : ℝ) := by
    exact_mod_cast hdecay t htm
  rw [← ht]
  nlinarith

theorem mapMO_const {α : Type} (f : ℕ → Option α) (c : α) (l : List ℕ)
    (h : ∀ i ∈ l, f i = some c) :
    mapMO f l = some (List.replicate l.length c) := by
  induction l with
  | nil => rfl
  | cons i is ih =>
    rw [mapMO, h i (List.mem_cons_self i is),
      ih (fun j hj => h j (List.mem_cons_of_mem i hj))]
    simp [List.replicate_succ]

/-- Witness for C8: with centers 30 Hz, 0 dB, 2 s and all-zero draws the
sampler returns frequencies 30, powers 0, decay times 2000 ms, and the
conclusions hold at `amp2re1 = 10`. -/
theorem claim_c8_witness :
    getObjectModes (List.replicate 10 30) (List.replicate 10 0)
      (List.replicate 10 2) (List.replicate 10 [0]) (List.replicate 10 [0])
      (List.replicate 10 0) = some modesW ∧
    ((∀ f ∈ modesW.frequencies, 20 ≤ f) ∧ (∀ t ∈ modesW.decay_times, 1 ≤ t) ∧
     (perturbPowers modesW []).frequencies = modesW.frequencies ∧
     (perturbPowers modesW []).decay_times = modesW.decay_times ∧
     (∀ t' ∈ rescaleDecayTimes modesW.decay_times 10, 1 ≤ t')) := by
  have hget : ∀ (q : ℚ) (i : ℕ), i ∈ List.range 10 →
      (List.replicate 10 q).get? i = some q := by
    intro q i hi
    rw [List.mem_range] at hi
    interval_cases i <;> rfl
  have hgetD : ∀ i ∈ List.range 10,
      (List.replicate 10 [(0 : ℚ)]).getD i [] = [0] := by
    intro i hi
    rw [List.mem_range] at hi
    interval_cases i <;> rfl
  have hsa30 : sampleAccepted 30 20 [(0 : ℚ)] = some 30 := by
    rw [sampleAccepted]
    have hmap : ([0] : List ℚ).map (fun d => (30 : ℚ) + d) = [30] := by norm_num
    rw [hmap, List.find?_cons_of_pos]
    simp only [decide_eq_true_eq]
    norm_num
  have hsa2 : sampleAccepted 2 (1 / 1000) [(0 : ℚ)] = some 2 := by
    rw [sampleAccepted]
    have hmap : ([0] : List ℚ).map (fun d => (2 : ℚ) + d) = [2] := by norm_num
    rw [hmap, List.find?_cons_of_pos]
    simp only [decide_eq_true_eq]
    norm_num
  have h1 : mapMO (fun jm => ((List.replicate 10 (30 : ℚ)).get? jm).bind
      (fun c => sampleAccepted c 20 ((List.replicate 10 [(0 : ℚ)]).getD jm [])))
      (List.range 10) = some (List.replicate 10 30) := by
    have := mapMO_const (fun jm => ((List.replicate 10 (30 : ℚ)).get? jm).bind
      (fun c => sampleAccepted c 20 ((List.replicate 10 [(0 : ℚ)]).getD jm [])))
      30 (List.range 10) (fun i hi => by
        show ((List.replicate 10 (30 : ℚ)).get? i).bind
          (fun c => sampleAccepted c 20
            ((List.replicate 10 [(0 : ℚ)]).getD i [])) = some 30
        rw [hget 30 i hi, Option.some_bind, hgetD i hi, hsa30])
    simpa using this
  have h2 : mapMO (fun jm => ((List.replicate 10 (0 : ℚ)).get? jm).bind
      (fun c => ((List.replicate 10 (0 : ℚ)).get? jm).map (fun d => c + d)))
      (List.range 10) = some (List.replicate 10 0) := by
    have := mapMO_const (fun jm => ((List.replicate 10 (0 : ℚ)).get? jm).bind
      (fun c => ((List.replicate 10 (0 : ℚ)).get? jm).map (fun d => c + d)))
      0 (List.range 10) (fun i hi => by
        show ((List.replicate 10 (0 : ℚ)).get? i).bind
          (fun c => ((List.replicate 10 (0 : ℚ)).get? i).map (fun d => c + d))
          = some 0
        rw [hget 0 i hi, Option.some_bind, Option.map_some']
        norm_num)
    simpa using this
  have h3 : mapMO (fun jm => ((List.replicate 10 (2 : ℚ)).get? jm).bind
      (fun c => (sampleAccepted c (1 / 1000)
        ((List.replicate 10 [(0 : ℚ)]).getD jm [])).map (fun t => t * 1000)))
      (List.range 10) = some (List.replicate 10 2000) := by
    have := mapMO_const (fun jm => ((List.replicate 10 (2 : ℚ)).get? jm).bind
      (fun c => (sampleAccepted c (1 / 1000)
        ((List.replicate 10 [(0 : ℚ)]).getD jm [])).map (fun t => t * 1000)))
      2000 (List.range 10) (fun i hi => by
        show ((List.replicate 10 (2 : ℚ)).get? i).bind
          (fun c => (sampleAccepted c (1 / 1000)
            ((List.replicate 10 [(0 : ℚ)]).getD i [])).map (fun t => t * 1000))
          = some 2000
        rw [hget 2 i hi, Option.some_bind, hgetD i hi, hsa2, Option.map_some']
        norm_num)
    simpa using this
  have hsample : getObjectModes (List.replicate 10 30) (List.replicate 10 0)
      (List.replicate 10 2) (List.replicate 10 [0]) (List.replicate 10 [0])
      (List.replicate 10 0) = some modesW := by
    rw [getObjectModes, h1, h2, h3]
    rfl
  exact ⟨hsample,
    claim_c8_amended_mode_invariants _ _ _ _ _ _ _ hsample [] 10 (by norm_num)⟩

/-- Counterexample for C8: a `Modes` value with decay time 1.5 ms (which
satisfies the invariant) is rescaled by `make_impact_audio` with
`amp2re1 = 1/10` (a secondary ten times quieter than the primary) to
decay time `1.5 - 20 = -18.5 ms`, violating `decay_times[i] >= 1 ms`. -/
theorem claim_c8_counterexample_rescale_below_1ms :
    (1 ≤ (3 / 2 : ℚ)) ∧
    rescaleDecayTimes [3 / 2] (1 / 10) = [-37 / 2] ∧
    ¬ (1 ≤ (-37 / 2 : ℝ)) := by
  have hlog : Real.logb 10 (1 / 10) = -1 := by
    rw [show ((1 : ℝ) / 10) = (10 : ℝ)⁻¹ by norm_num, Real.logb_inv,
      Real.logb_self_eq_one (by norm_num)]
  refine ⟨by norm_num, ?_, by norm_num⟩
  simp only [rescaleDecayTimes, List.map_cons, List.map_nil, hlog]
  norm_num

/-! ## C6: a one-pixel scrape removes the pair state and emits nothing -/

/-- C6: whenever the velocity magnitude yields `num_pts == 1` - that is,
`floor((min(speed, 5) / 1000) / SCRAPE_M_PER_PIXEL) <= 1`, the zero case
being promoted to 1 - `get_scrape_sound` returns no sound, and the
resulting scrape state is exactly the input state with the pair's
bindings deleted from all three dictionaries (summed master, event
count, start velocity) and the surface cursor untouched; in particular
all three lookups for the pair then miss, so a later scrape event for
the pair reinitializes its state from scratch. -/
theorem claim_c6_one_pixel_scrape_removes_state {Seg : Type}
    (api : ScrapeApi Seg) (surface scraping_ir : List ℚ)
    (st : ScrapeState Seg) (p s : ℤ) (speed : ℚ) (hspeed : 0 ≤ speed)
    (hpts : ⌊(min speed SCRAPE_MAX_VELOCITY / 1000) / SCRAPE_M_PER_PIXEL⌋ ≤ 1) :
    getScrapeSound api surface scraping_ir st p s speed
      = ({ masters := eraseA st.masters (p, s),
           counts := eraseA st.counts (p, s),
           startVels := eraseA st.startVels (p, s),
           prevIndex := st.prevIndex }, Option.none) ∧
    lookupA (eraseA st.masters (p, s)) (p, s) = Option.none ∧
    lookupA (eraseA st.counts (p, s)) (p, s) = Option.none ∧
    lookupA (eraseA st.startVels (p, s)) (p, s) = Option.none := by
  have hfl0 : 0 ≤ ⌊(min speed SCRAPE_MAX_VELOCITY / 1000) / SCRAPE_M_PER_PIXEL⌋ := by
    apply Int.floor_nonneg.mpr
    have h5 : 0 ≤ min speed SCRAPE_MAX_VELOCITY :=
      le_min hspeed (by norm_num [SCRAPE_MAX_VELOCITY])
    have hpix : (0 : ℚ) < SCRAPE_M_PER_PIXEL := by
      norm_num [SCRAPE_M_PER_PIXEL]
    exact div_nonneg (div_nonneg h5 (by norm_num)) (le_of_lt hpix)
  have hn : (if (⌊(min speed SCRAPE_MAX_VELOCITY / 1000) / SCRAPE_M_PER_PIXEL⌋ : ℤ) = 0
      then (1 : ℤ)
      else ⌊(min speed SCRAPE_MAX_VELOCITY / 1000) / SCRAPE_M_PER_PIXEL⌋) = 1 := by
    by_cases h0 : ⌊(min speed SCRAPE_MAX_VELOCITY / 1000) / SCRAPE_M_PER_PIXEL⌋ = 0
    · rw [if_pos h0]
    · rw [if_neg h0]
      omega
  refine ⟨?_, lookupA_eraseA _ _, lookupA_eraseA _ _, lookupA_eraseA _ _⟩
  rcases hmas : lookupA st.masters (p, s) with _ | m
  · simp only [getScrapeSound, hmas, hn, if_pos rfl]
    simp [endScrape, eraseA_insertOrd]
  · simp only [getScrapeSound, hmas, hn, if_pos rfl]
    by_cases hc : (lookupA st.counts (p, s)).getD 0 = 0
    · simp only [hc, if_pos rfl]
      simp [endScrape, eraseA_insertOrd]
    · simp only [hc, if_neg hc]
      simp [endScrape, eraseA_insertOrd]

/-- Witness for C6: a zero-velocity scrape of the live pair (1, 2) in a
concrete state removes all three of its bindings and leaves the surface
cursor at 7. -/
theorem claim_c6_witness :
    (0 ≤ (0 : ℚ)) ∧
    (⌊(min (0 : ℚ) SCRAPE_MAX_VELOCITY / 1000) / SCRAPE_M_PER_PIXEL⌋ ≤ 1) ∧
    (getScrapeSound unitScrapeApi [] [] scrapeStateW 1 2 0
      = ({ masters := eraseA scrapeStateW.masters (1, 2),
           counts := eraseA scrapeStateW.counts (1, 2),
           startVels := eraseA scrapeStateW.startVels (1, 2),
           prevIndex := scrapeStateW.prevIndex }, Option.none) ∧
     lookupA (eraseA scrapeStateW.masters (1, 2)) (1, 2) = Option.none ∧
     lookupA (eraseA scrapeStateW.counts (1, 2)) (1, 2) = Option.none ∧
     lookupA (eraseA scrapeStateW.startVels (1, 2)) (1, 2) = Option.none) :=
  ⟨le_refl 0,
   by norm_num [SCRAPE_MAX_VELOCITY, SCRAPE_M_PER_PIXEL, min_def],
   claim_c6_one_pixel_scrape_removes_state unitScrapeApi [] [] scrapeStateW 1 2 0
     (le_refl 0)
     (by norm_num [SCRAPE_MAX_VELOCITY, SCRAPE_M_PER_PIXEL, min_def])⟩

/-! ## C10: reset validates but never assigns initial_amp -/

/-- C10: for any valid `0 < initial_amp < 1`, `reset` succeeds and leaves
the stored `initial_amp` field (the master volume used by all later
synthesis) unchanged: the parameter is only validated by the assertion,
never assigned. -/
theorem claim_c10_reset_keeps_initial_amp {Seg : Type} (st : EngineState Seg)
    (a : ℚ) (h0 : 0 < a) (h1 : a < 1) :
    ∃ st', reset st a = Except.ok st' ∧ st'.initial_amp = st.initial_amp ∧
      st'.static_audio_data = [] ∧ st'.object_modes = [] ∧
      st'.scrape_summed_masters = [] := by
  unfold reset
  rw [if_pos ⟨h0, h1⟩]
  exact ⟨_, rfl, rfl, rfl, rfl, rfl⟩

/-- Witness for C10 at a concrete engine state with `initial_amp = 0.7`
and the valid argument `0.5`. -/
theorem claim_c10_witness :
    (0 < (1 / 2 : ℚ)) ∧ ((1 / 2 : ℚ) < 1) ∧
    ∃ st', reset engineStateW (1 / 2) = Except.ok st' ∧
      st'.initial_amp = engineStateW.initial_amp ∧
      st'.static_audio_data = [] ∧ st'.object_modes = [] ∧
      st'.scrape_summed_masters = [] :=
  ⟨by norm_num, by norm_num,
   claim_c10_reset_keeps_initial_amp engineStateW (1 / 2) (by norm_num) (by norm_num)⟩

end PyImpact
